import Mathlib

/-!
Shallow embedding of `src/app.py` (401k Portfolio Data API).

The program fetches a table of daily close prices for a fixed list of
tickers (falling back to a deterministically seeded synthetic table on any
fetch error), slices the table to dates on or after 2022-07-05, drops the
column `VFSVX`, drops rows containing missing values, and serves the result
as a JSON list of row-records plus a row count.

Modelling conventions:
* Dates are day serials (days since 1970-01-01), so date order is the
  natural order on `Nat`; 2022-07-05 is serial 19178, 2025-01-01 is 20089
  and 2025-09-29 is 20360.
* A pandas `DataFrame` is a column-name list together with rows, each row a
  date paired with a list of cells; a cell is `Option α`, `none` modelling
  `NaN`.  Prices are real numbers (`α := ℝ`) in the program itself; the
  table operations are polymorphic in the cell type.
* NumPy's seeded global generator is modelled by a state `(seed, position)`
  and an abstract draw family `gauss : seed → position → ℝ` giving the
  standard-normal stream each seed determines; `np.random.seed 42` resets
  the state to `(42, 0)` regardless of the previous state.
* Fallible pandas operations return `Except String`; `DataFrame.drop` with
  a missing label raises `KeyError`, modelled by the `Except.error` branch.
-/

namespace App401k

/-- A pandas DataFrame: named columns and date-indexed rows.  Each row is a
date serial paired with one cell per column; `none` is a missing value. -/
structure DataFrame (α : Type) where
  columns : List String
  rows : List (Nat × List (Option α))
  deriving Repr, DecidableEq

/-- The fixed list of 401k portfolio tickers from `app.py`. -/
def investment_options : List String :=
  ["DODGX", "FLCSX", "FXAIX", "VFIAX", "VFINX", "TRBCX", "PRGFX",
   "VTTVX", "VTTSX", "VTIVX", "VFFVX", "VSVNX", "TRRKX", "FFTHX",
   "FTBFX", "VBTLX", "VBMFX", "VIPIX", "MWTSX", "PTTRX",
   "PRWCX", "VWELX", "FCNTX", "DODFX",
   "VGTSX", "VTIAX", "FSPSX", "VFWAX", "TRIGX",
   "VFSVX", "VFSAX", "FISMX", "VINEX",
   "VEMAX", "FPADX"]

/-- The fixed list of market-index tickers from `app.py`. -/
def market_indexes : List String :=
  ["^VIX", "^MOVE", "^GSPC", "^TNX", "^IRX", "TIP"]

/-- All tickers requested from the data source, in request order. -/
def allTickers : List String := investment_options ++ market_indexes

/-- Day serial of the fixed cutoff date 2022-07-05. -/
def cutoffSerial : Nat := 19178

/-- `data.loc[cutoff:]` on an ascending date index: keep exactly the rows
whose date is on or after the cutoff, preserving order and columns. -/
def locFrom (cutoff : Nat) (df : DataFrame α) : DataFrame α :=
  { columns := df.columns
    rows := df.rows.filter (fun r => cutoff ≤ r.1) }

/-- `df.drop(columns=[name])`: removes every column labelled `name` from
the header and from each row; raises `KeyError` when the label is absent,
the pandas default behaviour of the errors parameter. -/
def dropColumn (name : String) (df : DataFrame α) : Except String (DataFrame α) :=
  if name ∈ df.columns then
    Except.ok
      { columns := df.columns.filter (fun c => c ≠ name)
        rows := df.rows.map (fun r =>
          (r.1, ((df.columns.zip r.2).filter (fun p => p.1 ≠ name)).map Prod.snd)) }
  else
    Except.error ("KeyError: [" ++ name ++ "] not found in axis")

/-- `df.dropna()`: remove every row that contains a missing value. -/
def dropna (df : DataFrame α) : DataFrame α :=
  { columns := df.columns
    rows := df.rows.filter (fun r => r.2.all Option.isSome) }

/-- `df.to_dict(orient="records")`: one association list per row, pairing
each column name with that row's cell; the date index is not serialized. -/
def toRecords (df : DataFrame α) : List (List (String × Option α)) :=
  df.rows.map (fun r => df.columns.zip r.2)

/-- Steps 3 and 4 of `get_cleaned_data`: date slice from the cutoff, drop
`VFSVX` (fallible), then drop rows with remaining missing values. -/
def cleanPipeline (df : DataFrame α) : Except String (DataFrame α) :=
  (dropColumn "VFSVX" (locFrom cutoffSerial df)).map dropna

/-- Business days (Mon-Fri) by day serial; serial 0 (1970-01-01) was a
Thursday, so `(d + 4) % 7` is the weekday with 0 = Sunday. -/
def isBusinessDay (d : Nat) : Bool :=
  let w := (d + 4) % 7
  1 ≤ w && w ≤ 5

/-- `pd.date_range(start="2025-01-01", end="2025-09-29", freq="B")`:
the business days between serials 20089 and 20360 inclusive. -/
def bdays : List Nat :=
  ((List.range (20360 + 1 - 20089)).map (· + 20089)).filter isBusinessDay

/-- Number of synthetic dates, `len(dates)` in the fallback branch. -/
def numDates : Nat := bdays.length

/-- Cell value of the synthetic table for the `k`-th ticker on the `i`-th
business day, given the standard-normal stream `g` of the seeded
generator: `100 * exp(cumsum(normal(0.0002, 0.01, len(dates))))[i]`, the
`k`-th ticker consuming draws `k*numDates, ..., k*numDates + numDates-1`. -/
noncomputable def synthVal (g : Nat → ℝ) (k i : Nat) : ℝ :=
  100 * Real.exp (∑ j ∈ Finset.range (i + 1), (0.0002 + 0.01 * g (k * numDates + j)))

/-- The fallback dummy DataFrame: one column per requested ticker, one row
per business day of the fixed synthetic range. -/
noncomputable def syntheticTable (g : Nat → ℝ) : DataFrame ℝ :=
  { columns := allTickers
    rows := bdays.enum.map (fun p =>
      (p.2, (List.range allTickers.length).map (fun k => some (synthVal g k p.1)))) }

/-- NumPy global-generator state: current seed and stream position. -/
abbrev RngState : Type := Nat × Nat

/-- `np.random.seed(s)`: resets the global generator, discarding the
previous state. -/
def npSeed (s : Nat) (_prev : RngState) : RngState := (s, 0)

/-- The whole fallback branch of `get_cleaned_data`: reseed the global
generator with 42, then build the synthetic table from the seeded stream,
returning the table and the advanced generator state.  `gauss s p` is the
`p`-th standard-normal draw of the generator seeded with `s`. -/
noncomputable def fallbackTable (gauss : Nat → Nat → ℝ) (st : RngState) :
    DataFrame ℝ × RngState :=
  let st1 := npSeed 42 st
  (syntheticTable (gauss st1.1), (st1.1, allTickers.length * numDates))

/-- Result of the `yf.download(...)["Close"]` call: either the fetched
close-price table or the raised exception's message. -/
abbrev FetchResult : Type := Except String (DataFrame ℝ)

/-- `get_cleaned_data()`: use the fetched table when the fetch succeeded,
otherwise the synthetic fallback; then slice, drop `VFSVX` and dropna.
The `KeyError` from the drop is the only escaping failure. -/
noncomputable def get_cleaned_data (gauss : Nat → Nat → ℝ) (st : RngState)
    (fetch : FetchResult) : Except String (DataFrame ℝ) :=
  match fetch with
  | Except.ok data => cleanPipeline data
  | Except.error _ => cleanPipeline (fallbackTable gauss st).1

/-- JSON body of a `/get-401k-data` response: the success envelope carries
a message, the records and the row count; the error envelope carries only
a message (no partial data field exists). -/
inductive Body (α : Type) where
  | success (message : String) (data : List (List (String × Option α))) (row_count : Nat)
  | error (message : String)
  deriving Repr, DecidableEq

/-- An HTTP response: status code and JSON body. -/
structure Response (α : Type) where
  status : Nat
  body : Body α
  deriving Repr, DecidableEq

/-- The endpoint boundary of `api_get_401k_data`: a cleaned table becomes
the 200 success envelope (records via `to_dict(orient="records")` and
`row_count = len(clean_df)`); any escaped exception becomes the 500 error
envelope. -/
def apiOf (result : Except String (DataFrame α)) : Response α :=
  match result with
  | Except.ok df =>
      { status := 200
        body := Body.success "401k portfolio data fetched and cleaned."
          (toRecords df) df.rows.length }
  | Except.error e =>
      { status := 500
        body := Body.error ("An error occurred: " ++ e) }

/-- `GET /get-401k-data`: run the producer-cleaner pipeline and convert
the outcome at the endpoint boundary. -/
noncomputable def api_get_401k_data (gauss : Nat → Nat → ℝ) (st : RngState)
    (fetch : FetchResult) : Response ℝ :=
  apiOf (get_cleaned_data gauss st fetch)

/-- Replace the date index of a table, keeping columns and cells. -/
def reindex (f : Nat → Nat) (df : DataFrame α) : DataFrame α :=
  { columns := df.columns
    rows := df.rows.map (fun r => (f r.1, r.2)) }

/-! ## Helper lemmas -/

lemma locFrom_columns (cutoff : Nat) (df : DataFrame α) :
    (locFrom cutoff df).columns = df.columns := rfl

lemma cleanPipeline_ok_spec {df out : DataFrame α}
    (h : cleanPipeline df = Except.ok out) :
    "VFSVX" ∉ out.columns ∧
    ∀ r ∈ out.rows, cutoffSerial ≤ r.1 ∧ r.2.all Option.isSome = true := by
  unfold cleanPipeline dropColumn at h
  by_cases hc : "VFSVX" ∈ (locFrom cutoffSerial df).columns
  · rw [if_pos hc] at h
    simp only [Except.map] at h
    replace h := h.symm
    injection h with h
    subst h
    constructor
    · simp [dropna, locFrom, List.mem_filter]
    · intro r hr
      simp only [dropna, List.mem_filter] at hr
      refine ⟨?_, hr.2⟩
      rcases List.mem_map.1 hr.1 with ⟨r₀, hr₀, hEq⟩
      rcases List.mem_filter.1 hr₀ with ⟨_, hcut⟩
      rw [← hEq]
      exact of_decide_eq_true hcut
  · rw [if_neg hc] at h
    simp [Except.map] at h

lemma cleanPipeline_ok_of_mem {df : DataFrame α} (h : "VFSVX" ∈ df.columns) :
    ∃ out, cleanPipeline df = Except.ok out := by
  unfold cleanPipeline dropColumn
  rw [if_pos (show "VFSVX" ∈ (locFrom cutoffSerial df).columns from h)]
  exact ⟨_, rfl⟩

lemma get_cleaned_data_eq (gauss : Nat → Nat → ℝ) (st : RngState)
    (fetch : FetchResult) :
    get_cleaned_data gauss st fetch =
      cleanPipeline (match fetch with
        | Except.ok data => data
        | Except.error _ => (fallbackTable gauss st).1) := by
  cases fetch <;> rfl

lemma apiOf_success_spec {res : Except String (DataFrame α)} {msg data rc}
    (h : apiOf res = { status := 200, body := Body.success msg data rc }) :
    ∃ df, res = Except.ok df ∧ data = toRecords df ∧ rc = df.rows.length := by
  cases res with
  | ok df =>
      refine ⟨df, rfl, ?_⟩
      simp only [apiOf, Response.mk.injEq, Body.success.injEq] at h
      exact ⟨h.2.2.1.symm, h.2.2.2.symm⟩
  | error e => simp [apiOf] at h

/-! ## Claims -/

/-- C5: the date filter of the cleaner retains exactly the rows whose date
is on or after the cutoff 2022-07-05 (inclusive lower bound, with no
assumption that the cutoff itself occurs in the index), keeps them in
their original order (a sublist of the input rows), and leaves the
columns unchanged. -/
theorem locFrom_retains_exactly_cutoff_rows (df : DataFrame α) :
    (∀ r, r ∈ (locFrom cutoffSerial df).rows ↔ r ∈ df.rows ∧ cutoffSerial ≤ r.1) ∧
    (locFrom cutoffSerial df).rows.Sublist df.rows ∧
    (locFrom cutoffSerial df).columns = df.columns := by
  refine ⟨fun r => ?_, List.filter_sublist _, rfl⟩
  simp [locFrom, List.mem_filter]

/-- C6: when the column VFSVX is absent from the table (and hence from the
date-filtered table), the cleaning step fails with the pandas KeyError for
a missing drop label instead of proceeding without dropping. -/
theorem clean_fails_when_VFSVX_absent (gauss : Nat → Nat → ℝ) (st : RngState)
    (df : DataFrame ℝ) (h : "VFSVX" ∉ df.columns) :
    get_cleaned_data gauss st (Except.ok df) =
      Except.error "KeyError: [VFSVX] not found in axis" := by
  show cleanPipeline df = _
  unfold cleanPipeline dropColumn
  rw [if_neg (show ¬ "VFSVX" ∈ (locFrom cutoffSerial df).columns from h)]
  rfl

/-- Witness for C6 at a concrete one-column table lacking VFSVX. -/
theorem clean_fails_when_VFSVX_absent_w :
    ("VFSVX" ∉ (DataFrame.mk ["FXAIX"] [(19200, [some (1:ℝ)])]).columns) ∧
    get_cleaned_data (fun _ _ => 0) (0, 0)
        (Except.ok (DataFrame.mk ["FXAIX"] [(19200, [some (1:ℝ)])])) =
      Except.error "KeyError: [VFSVX] not found in axis" :=
  ⟨by decide, clean_fails_when_VFSVX_absent _ _ _ (by decide)⟩

/-- C7: every error escaping the produce-then-clean pipeline is converted
at the endpoint boundary into the status-500 error envelope, whose body is
only a status and a message string — it has no data field, so no partial
data can appear in it. -/
theorem pipeline_error_becomes_500 (gauss : Nat → Nat → ℝ) (st : RngState)
    (fetch : FetchResult) (e : String)
    (h : get_cleaned_data gauss st fetch = Except.error e) :
    api_get_401k_data gauss st fetch =
      { status := 500, body := Body.error ("An error occurred: " ++ e) } := by
  unfold api_get_401k_data
  rw [h]
  rfl

/-- Witness for C7: a fetch whose table lacks VFSVX makes the pipeline
fail, and the endpoint answers 500 with the error envelope. -/
theorem pipeline_error_becomes_500_w :
    get_cleaned_data (fun _ _ => 0) (0, 0)
        (Except.ok (DataFrame.mk ["FXAIX"] [(19200, [some (1:ℝ)])])) =
      Except.error "KeyError: [VFSVX] not found in axis" ∧
    api_get_401k_data (fun _ _ => 0) (0, 0)
        (Except.ok (DataFrame.mk ["FXAIX"] [(19200, [some (1:ℝ)])])) =
      { status := 500,
        body := Body.error ("An error occurred: " ++ "KeyError: [VFSVX] not found in axis") } :=
  ⟨by rfl, pipeline_error_becomes_500 _ _ _ _ (by rfl)⟩

/-- C8: the fallback is deterministic: since it reseeds the generator with
the fixed seed 42, two invocations from arbitrary distinct prior generator
states produce identical tables (same dates, columns and values) and
identical final states, and the cleaned result of the error branch is
likewise independent of the prior state and of the error message. -/
theorem fallback_deterministic (gauss : Nat → Nat → ℝ) (st₁ st₂ : RngState) :
    fallbackTable gauss st₁ = fallbackTable gauss st₂ ∧
    (fallbackTable gauss st₁).1 = syntheticTable (gauss 42) ∧
    ∀ msg₁ msg₂ : String,
      get_cleaned_data gauss st₁ (Except.error msg₁) =
        get_cleaned_data gauss st₂ (Except.error msg₂) :=
  ⟨rfl, rfl, fun _ _ => rfl⟩

/-- C1: in every 200 success response, no record has a missing value in
any field and no record carries the removed key VFSVX: the drop step
removes the column label everywhere and dropna removes every incomplete
row before serialization. -/
theorem success_rows_complete_no_VFSVX (gauss : Nat → Nat → ℝ) (st : RngState)
    (fetch : FetchResult) (msg : String)
    (data : List (List (String × Option ℝ))) (rc : Nat)
    (h : api_get_401k_data gauss st fetch =
      { status := 200, body := Body.success msg data rc }) :
    ∀ rec ∈ data, ∀ kv ∈ rec, kv.1 ≠ "VFSVX" ∧ kv.2.isSome = true := by
  unfold api_get_401k_data at h
  rcases apiOf_success_spec h with ⟨df, hok, hdata, -⟩
  rw [get_cleaned_data_eq] at hok
  rcases cleanPipeline_ok_spec hok with ⟨hcol, hrows⟩
  subst hdata
  intro rec hrec kv hkv
  rcases List.mem_map.1 hrec with ⟨r, hr, hEq⟩
  subst hEq
  obtain ⟨k, v⟩ := kv
  rcases List.of_mem_zip hkv with ⟨hk, hv⟩
  refine ⟨fun hEq => hcol (hEq ▸ hk), ?_⟩
  exact List.all_eq_true.1 (hrows r hr).2 v hv

/-- Witness for C1 on a concrete fetched table containing VFSVX and a
pre-cutoff row. -/
theorem success_rows_complete_no_VFSVX_w :
    api_get_401k_data (fun _ _ => 0) (0, 0)
        (Except.ok (DataFrame.mk ["VFSVX", "FXAIX"]
          [(19200, [some (1:ℝ), some 2]), (100, [some 3, some 4])])) =
      { status := 200,
        body := Body.success "401k portfolio data fetched and cleaned."
          [[("FXAIX", some 2)]] 1 } ∧
    ∀ rec ∈ [[("FXAIX", some (2:ℝ))]], ∀ kv ∈ rec,
      kv.1 ≠ "VFSVX" ∧ kv.2.isSome = true :=
  ⟨by rfl,
   success_rows_complete_no_VFSVX (fun _ _ => 0) (0, 0)
     (Except.ok (DataFrame.mk ["VFSVX", "FXAIX"]
       [(19200, [some (1:ℝ), some 2]), (100, [some 3, some 4])]))
     "401k portfolio data fetched and cleaned." [[("FXAIX", some 2)]] 1 (by rfl)⟩

/-- C2: when the external fetch raises, the producer substitutes the
synthetic fallback table, whose columns are exactly the requested
identifiers; the pipeline then succeeds (no exception escapes the
producer) and the endpoint answers with status 200. -/
theorem fetch_error_yields_200_synthetic (gauss : Nat → Nat → ℝ)
    (st : RngState) (msg : String) :
    (fallbackTable gauss st).1.columns = investment_options ++ market_indexes ∧
    (∃ df, get_cleaned_data gauss st (Except.error msg) = Except.ok df) ∧
    (api_get_401k_data gauss st (Except.error msg)).status = 200 := by
  have hmem : "VFSVX" ∈ (fallbackTable gauss st).1.columns := by
    show "VFSVX" ∈ allTickers
    decide
  rcases cleanPipeline_ok_of_mem hmem with ⟨out, hout⟩
  refine ⟨rfl, ⟨out, ?_⟩, ?_⟩
  · rw [get_cleaned_data_eq]
    exact hout
  · unfold api_get_401k_data
    rw [get_cleaned_data_eq, hout]
    rfl

/-- C4: every date of the cleaned table behind a successful response — the
table whose rows `data` serializes — is on or after 2022-07-05 (serial
19178), because the date slice keeps only such rows and the later steps
never add rows. -/
theorem success_dates_on_or_after_cutoff (gauss : Nat → Nat → ℝ)
    (st : RngState) (fetch : FetchResult) (df : DataFrame ℝ)
    (h : get_cleaned_data gauss st fetch = Except.ok df) :
    ∀ r ∈ df.rows, cutoffSerial ≤ r.1 := by
  rw [get_cleaned_data_eq] at h
  intro r hr
  exact ((cleanPipeline_ok_spec h).2 r hr).1

/-- Witness for C4 on a concrete fetched table with one pre-cutoff row. -/
theorem success_dates_on_or_after_cutoff_w :
    get_cleaned_data (fun _ _ => 0) (0, 0)
        (Except.ok (DataFrame.mk ["VFSVX", "FXAIX"]
          [(19200, [some (1:ℝ), some 2]), (100, [some 3, some 4])])) =
      Except.ok (DataFrame.mk ["FXAIX"] [(19200, [some (2:ℝ)])]) ∧
    ∀ r ∈ (DataFrame.mk ["FXAIX"] [(19200, [some (2:ℝ)])]).rows,
      cutoffSerial ≤ r.1 :=
  ⟨by rfl,
   success_dates_on_or_after_cutoff (fun _ _ => 0) (0, 0)
     (Except.ok (DataFrame.mk ["VFSVX", "FXAIX"]
       [(19200, [some (1:ℝ), some 2]), (100, [some 3, some 4])]))
     (DataFrame.mk ["FXAIX"] [(19200, [some (2:ℝ)])]) (by rfl)⟩

/-- C9: in every 200 success response the row_count field equals the
length of the data array, both being the number of rows of the cleaned
table. -/
theorem row_count_matches_data_length (gauss : Nat → Nat → ℝ)
    (st : RngState) (fetch : FetchResult) (msg : String)
    (data : List (List (String × Option ℝ))) (rc : Nat)
    (h : api_get_401k_data gauss st fetch =
      { status := 200, body := Body.success msg data rc }) :
    rc = data.length := by
  unfold api_get_401k_data at h
  rcases apiOf_success_spec h with ⟨df, -, hdata, hrc⟩
  subst hdata
  rw [hrc]
  simp [toRecords]

/-- Witness for C9 at a concrete fetched table. -/
theorem row_count_matches_data_length_w :
    api_get_401k_data (fun _ _ => 0) (0, 0)
        (Except.ok (DataFrame.mk ["VFSVX", "FXAIX"]
          [(19200, [some (1:ℝ), some 2]), (100, [some 3, some 4])])) =
      { status := 200,
        body := Body.success "401k portfolio data fetched and cleaned."
          [[("FXAIX", some 2)]] 1 } ∧
    1 = [[("FXAIX", some (2:ℝ))]].length :=
  ⟨by rfl,
   row_count_matches_data_length (fun _ _ => 0) (0, 0)
     (Except.ok (DataFrame.mk ["VFSVX", "FXAIX"]
       [(19200, [some (1:ℝ), some 2]), (100, [some 3, some 4])]))
     "401k portfolio data fetched and cleaned." [[("FXAIX", some 2)]] 1 (by rfl)⟩

/-- C10: the data array of every 200 success response is the record
serialization of the cleaned table; the record keys all come from the
table's column names (instrument identifiers — no date key of any kind),
and the serialization discards the date index entirely: reindexing the
table with any date map leaves the records unchanged. -/
theorem records_contain_no_dates (gauss : Nat → Nat → ℝ)
    (st : RngState) (fetch : FetchResult) (msg : String)
    (data : List (List (String × Option ℝ))) (rc : Nat)
    (h : api_get_401k_data gauss st fetch =
      { status := 200, body := Body.success msg data rc }) :
    ∃ df, get_cleaned_data gauss st fetch = Except.ok df ∧
      data = toRecords df ∧
      (∀ rec ∈ data, ∀ kv ∈ rec, kv.1 ∈ df.columns) ∧
      (∀ f : Nat → Nat, toRecords (reindex f df) = toRecords df) := by
  unfold api_get_401k_data at h
  rcases apiOf_success_spec h with ⟨df, hok, hdata, -⟩
  refine ⟨df, hok, hdata, ?_, ?_⟩
  · subst hdata
    intro rec hrec kv hkv
    rcases List.mem_map.1 hrec with ⟨r, hr, hEq⟩
    subst hEq
    obtain ⟨k, v⟩ := kv
    exact (List.of_mem_zip hkv).1
  · intro f
    show (df.rows.map _).map _ = _
    rw [List.map_map]
    rfl

/-- Witness for C10 at a concrete fetched table. -/
theorem records_contain_no_dates_w :
    api_get_401k_data (fun _ _ => 0) (0, 0)
        (Except.ok (DataFrame.mk ["VFSVX", "FXAIX"]
          [(19200, [some (1:ℝ), some 2]), (100, [some 3, some 4])])) =
      { status := 200,
        body := Body.success "401k portfolio data fetched and cleaned."
          [[("FXAIX", some 2)]] 1 } ∧
    ∃ df, get_cleaned_data (fun _ _ => 0) (0, 0)
        (Except.ok (DataFrame.mk ["VFSVX", "FXAIX"]
          [(19200, [some (1:ℝ), some 2]), (100, [some 3, some 4])])) =
        Except.ok df ∧
      [[("FXAIX", some (2:ℝ))]] = toRecords df ∧
      (∀ rec ∈ [[("FXAIX", some (2:ℝ))]], ∀ kv ∈ rec, kv.1 ∈ df.columns) ∧
      (∀ f : Nat → Nat, toRecords (reindex f df) = toRecords df) :=
  ⟨by rfl,
   records_contain_no_dates (fun _ _ => 0) (0, 0)
     (Except.ok (DataFrame.mk ["VFSVX", "FXAIX"]
       [(19200, [some (1:ℝ), some 2]), (100, [some 3, some 4])]))
     "401k portfolio data fetched and cleaned." [[("FXAIX", some 2)]] 1 (by rfl)⟩

/-- C3 counterexample: instantiating the seeded standard-normal stream
with the concrete value 1 for every draw, the first row of the synthetic
table (date serial 20089 = 2025-01-01) carries as its first cell the first
element of the first series, and that element is 100·exp(0.0002 + 0.01·1),
which is not 100: the cumulative sum already includes the first increment,
so no generated series has first element exactly 100 unless its first draw
happens to be exactly -0.02. -/
theorem synthetic_first_element_ne_100 :
    (syntheticTable (fun _ => 1)).rows.head? =
      some (20089, (List.range 41).map (fun k => some (synthVal (fun _ => 1) k 0))) ∧
    ((List.range 41).map (fun k => some (synthVal (fun _ => (1:ℝ)) k 0))).head? =
      some (some (synthVal (fun _ => 1) 0 0)) ∧
    synthVal (fun _ => 1) 0 0 ≠ 100 := by
  refine ⟨rfl, rfl, ?_⟩
  intro h
  unfold synthVal at h
  rw [Finset.sum_range_one] at h
  have h1 : Real.exp (0.0002 + 0.01 * 1) = 1 := by linarith
  rw [Real.exp_eq_one_iff] at h1
  norm_num at h1

/-- C3 amended: each synthetic series is a geometric random walk with
fixed drift 0.0002 and volatility 0.01 on base value 100, but its first
element already includes the first increment: it equals
100·exp(0.0002 + 0.01·g₀) for the series' first draw g₀ rather than 100,
and each later element multiplies its predecessor by the exponential of
the next increment. -/
theorem synthetic_series_geometric_walk (g : Nat → ℝ) (k : Nat) :
    synthVal g k 0 = 100 * Real.exp (0.0002 + 0.01 * g (k * numDates)) ∧
    ∀ i, synthVal g k (i + 1) =
      synthVal g k i * Real.exp (0.0002 + 0.01 * g (k * numDates + (i + 1))) := by
  constructor
  · unfold synthVal
    rw [Finset.sum_range_one, Nat.add_zero]
  · intro i
    unfold synthVal
    rw [Finset.sum_range_succ, Real.exp_add]
    ring

end App401k
